import Mathlib

/-!
# Verification of predict-otron-9000 core behaviors

Shallow embedding of the OpenAI-compatible inference gateway
(`predict-otron-9000`) in Lean 4, covering:

* the repetition-penalty cache of
  `crates/inference-engine/src/text_generation.rs`
  (`apply_cached_repeat_penalty`);
* the non-streaming chat handler and the streaming event builder of
  `crates/inference-engine/src/server.rs`
  (`chat_completions_non_streaming_proxy`, `handle_streaming_request`);
* the generation loop `run_with_output` of
  `crates/inference-engine/src/text_generation.rs`;
* the embeddings handler of `crates/embeddings-engine/src/lib.rs`
  (`embeddings_create`, `parse_embedding_model`, `get_model_dimensions`);
* the HighAvailability reverse proxy of
  `crates/predict-otron-9000/src/ha_mode.rs`
  (`proxy_chat_completions`, `should_forward_response_header`).

Logits are modelled as rational numbers (`ℚ`): the behaviors proved
here (sign, identity, division by a penalty `> 1`) are exact and agree
with IEEE `f32` on the sign/zero structure used in the statements.
Rust `usize` values are modelled as `Nat` with Rust's saturating and
flooring operations mapped to `Nat` subtraction and division.
-/

namespace PredictOtron

/-! ## Repetition-penalty cache

From `crates/inference-engine/src/text_generation.rs`,
`TextGeneration::apply_cached_repeat_penalty` (lines 131-186).
The `HashMap<usize, f32>` penalty cache is modelled as an association
list whose lookup finds the most recently inserted binding, which has
the same lookup semantics as `HashMap::insert`/`get`. -/

/-- Lookup in the modelled penalty cache (`self.penalty_cache.get(&token_id)`). -/
def cacheLookup (cache : List (Nat × ℚ)) (k : Nat) : Option ℚ :=
  match cache with
  | [] => none
  | (k2, v) :: rest => if k = k2 then some v else cacheLookup rest k

/-- Insert into the modelled penalty cache
(`self.penalty_cache.insert(token_id, penalized_score)`); consing keeps
the `HashMap` lookup semantics (later insert wins). -/
def cacheInsert (cache : List (Nat × ℚ)) (k : Nat) (v : ℚ) : List (Nat × ℚ) :=
  (k, v) :: cache

/-- One iteration of the `for &token_id in penalty_tokens` loop of
`apply_cached_repeat_penalty`: if the id is in bounds, set the logit
from the cache, or else compute `sign * score / repeat_penalty`
(where `sign = if score < 0.0 { -1.0 } else { 1.0 }`) and memoize it. -/
def penaltyStep (repeat_penalty : ℚ) (s : List ℚ × List (Nat × ℚ)) (token_id : Nat) :
    List ℚ × List (Nat × ℚ) :=
  let vec := s.1
  let cache := s.2
  if token_id < vec.length then
    match cacheLookup cache token_id with
    | some penalized_score => (vec.set token_id penalized_score, cache)
    | none =>
        let score := vec.getD token_id 0
        let sign : ℚ := if score < 0 then -1 else 1
        let penalized_score := sign * score / repeat_penalty
        (vec.set token_id penalized_score, cacheInsert cache token_id penalized_score)
  else s

/-- `TextGeneration::apply_cached_repeat_penalty`: returns the new
logits vector together with the updated penalty cache.  If
`repeat_penalty == 1.0` the input logits are returned unchanged;
otherwise the last `repeat_last_n` history tokens are penalized
(`tokens.len().saturating_sub(repeat_last_n)` is `Nat` subtraction). -/
def applyCachedRepeatPenalty (repeat_penalty : ℚ) (repeat_last_n : Nat)
    (penalty_cache : List (Nat × ℚ)) (logits : List ℚ) (tokens : List Nat) :
    List ℚ × List (Nat × ℚ) :=
  if repeat_penalty = 1 then (logits, penalty_cache)
  else
    let start_at := tokens.length - repeat_last_n
    let penalty_tokens := tokens.drop start_at
    penalty_tokens.foldl (penaltyStep repeat_penalty) (logits, penalty_cache)

/-- The sign of a rational, mirroring the sign structure of an `f32`
logit: `-1` for negative, `0` for zero, `1` for positive. -/
def signQ (x : ℚ) : ℚ :=
  if x < 0 then -1 else if x = 0 then 0 else 1

/-- `sign * score` with the source's `sign` convention equals `|score|`. -/
def absQ (x : ℚ) : ℚ :=
  (if x < 0 then (-1 : ℚ) else 1) * x

theorem absQ_eq_abs (x : ℚ) : absQ x = |x| := by
  unfold absQ
  rcases lt_trichotomy x 0 with h | h | h
  · rw [if_pos h, abs_of_neg h]; ring
  · simp [h]
  · rw [if_neg (not_lt.mpr h.le), abs_of_pos h, one_mul]

theorem signQ_of_pos {x : ℚ} (h : 0 < x) : signQ x = 1 := by
  unfold signQ
  rw [if_neg (not_lt.mpr h.le), if_neg h.ne']

theorem getD_set_self (l : List ℚ) (i : Nat) (a : ℚ) (h : i < l.length) :
    (l.set i a).getD i 0 = a := by
  simp [List.getD_eq_getElem?_getD, List.getElem?_set, h]

theorem getD_set_ne (l : List ℚ) (i j : Nat) (a : ℚ) (h : i ≠ j) :
    (l.set i a).getD j 0 = l.getD j 0 := by
  simp [List.getD_eq_getElem?_getD, List.getElem?_set, h]

/-- Invariant of the penalty loop: starting from the original logits
and an empty cache, each slot is either untouched or holds
`|original| / penalty`, and the cache records exactly the touched
slots. -/
def PenaltyInv (p : ℚ) (orig : List ℚ) (s : List ℚ × List (Nat × ℚ)) : Prop :=
  s.1.length = orig.length ∧
  ∀ i, i < orig.length →
    (s.1.getD i 0 = orig.getD i 0 ∧ cacheLookup s.2 i = none) ∨
    (s.1.getD i 0 = |orig.getD i 0| / p ∧ cacheLookup s.2 i = some (|orig.getD i 0| / p))

theorem penaltyStep_inv (p : ℚ) (orig : List ℚ) (s : List ℚ × List (Nat × ℚ))
    (t : Nat) (h : PenaltyInv p orig s) : PenaltyInv p orig (penaltyStep p s t) := by
  obtain ⟨hlen, hinv⟩ := h
  unfold penaltyStep
  by_cases ht : t < s.1.length
  · have htorig : t < orig.length := hlen ▸ ht
    simp only [if_pos ht]
    cases hc : cacheLookup s.2 t with
    | some v =>
        have hv : v = |orig.getD t 0| / p := by
          rcases hinv t htorig with ⟨_, hnone⟩ | ⟨_, hsome⟩
          · rw [hc] at hnone; cases hnone
          · rw [hc] at hsome; exact Option.some_inj.mp hsome
        refine ⟨by simpa using hlen, fun i hi => ?_⟩
        by_cases hit : i = t
        · subst hit
          right
          exact ⟨by rw [getD_set_self _ _ _ ht, hv],
                 hv ▸ hc⟩
        · have := hinv i hi
          rwa [getD_set_ne _ _ _ _ (fun e => hit e.symm)]
    | none =>
        have hval : s.1.getD t 0 = orig.getD t 0 := by
          rcases hinv t htorig with ⟨hv, _⟩ | ⟨_, hsome⟩
          · exact hv
          · rw [hc] at hsome; cases hsome
        have hpen : (if s.1.getD t 0 < 0 then (-1 : ℚ) else 1) * s.1.getD t 0 / p
            = |orig.getD t 0| / p := by
          rw [show (if s.1.getD t 0 < 0 then (-1 : ℚ) else 1) * s.1.getD t 0
                = absQ (s.1.getD t 0) from rfl, absQ_eq_abs, hval]
        refine ⟨by simpa using hlen, fun i hi => ?_⟩
        by_cases hit : i = t
        · subst hit
          right
          refine ⟨by rw [getD_set_self _ _ _ ht, hpen], ?_⟩
          have hl : cacheLookup (cacheInsert s.2 i
              ((if s.1.getD i 0 < 0 then (-1 : ℚ) else 1) * s.1.getD i 0 / p)) i
              = some ((if s.1.getD i 0 < 0 then (-1 : ℚ) else 1) * s.1.getD i 0 / p) := by
            simp [cacheInsert, cacheLookup]
          rw [hl, hpen]
        · rw [getD_set_ne _ _ _ _ (fun e => hit e.symm)]
          have hlook : cacheLookup (cacheInsert s.2 t
              ((if s.1.getD t 0 < 0 then (-1 : ℚ) else 1) * s.1.getD t 0 / p)) i
              = cacheLookup s.2 i := by
            simp only [cacheInsert, cacheLookup, if_neg hit]
          rw [hlook]
          exact hinv i hi
  · simpa [if_neg ht] using ⟨hlen, hinv⟩

theorem foldl_penaltyStep_inv (p : ℚ) (orig : List ℚ) :
    ∀ (toks : List Nat) (s : List ℚ × List (Nat × ℚ)), PenaltyInv p orig s →
      PenaltyInv p orig (toks.foldl (penaltyStep p) s)
  | [], _, h => h
  | t :: rest, s, h =>
      foldl_penaltyStep_inv p orig rest (penaltyStep p s t) (penaltyStep_inv p orig s t h)

/-- **C8.** `apply_cached_repeat_penalty` with `repeat_penalty == 1.0` is
the identity: the logits (and the cache) are returned unchanged. -/
theorem apply_cached_repeat_penalty_identity_at_one
    (repeat_last_n : Nat) (cache : List (Nat × ℚ)) (logits : List ℚ) (tokens : List Nat) :
    applyCachedRepeatPenalty 1 repeat_last_n cache logits tokens = (logits, cache) := by
  unfold applyCachedRepeatPenalty
  rw [if_pos rfl]

/-- **C5 counterexample.** With `repeat_penalty = 2 > 1`, fresh cache, logits
`[-2]` and history `[0]`, the penalized vector is `[1]`: the strictly
negative component becomes strictly positive, so the sign is *not*
preserved (the source computes `sign * score / penalty = |score| / penalty`,
not `sign * |score| / penalty`). -/
theorem apply_cached_repeat_penalty_sign_counterexample :
    (1 : ℚ) < 2 ∧
    (applyCachedRepeatPenalty 2 64 [] [-2] [0]).1 = [1] ∧
    signQ ((applyCachedRepeatPenalty 2 64 [] [-2] [0]).1.getD 0 0) ≠
      signQ ((-2 : ℚ)) := by
  have h1 : (applyCachedRepeatPenalty 2 64 [] [-2] [0]).1 = [1] := by
    norm_num [applyCachedRepeatPenalty, penaltyStep, cacheLookup]
  refine ⟨by norm_num, h1, ?_⟩
  rw [h1]
  norm_num [signQ]

/-- **C5 (amended).** For `repeat_penalty > 1` and a fresh (empty) cache,
every component of the penalized logits is either the unchanged input
component or `|input| / penalty`; consequently the sign is preserved for
every component whose input logit is non-negative (a strictly negative
penalized component instead flips to strictly positive, see the
counterexample). -/
theorem apply_cached_repeat_penalty_sign_nonneg
    (p : ℚ) (repeat_last_n : Nat) (logits : List ℚ) (tokens : List Nat)
    (hp : 1 < p) (i : Nat) (hi : i < logits.length) :
    ((applyCachedRepeatPenalty p repeat_last_n [] logits tokens).1.getD i 0 = logits.getD i 0 ∨
     (applyCachedRepeatPenalty p repeat_last_n [] logits tokens).1.getD i 0 =
       |logits.getD i 0| / p) ∧
    (0 ≤ logits.getD i 0 →
     signQ ((applyCachedRepeatPenalty p repeat_last_n [] logits tokens).1.getD i 0) =
       signQ (logits.getD i 0)) := by
  have hpne : p ≠ 1 := hp.ne'
  have hres : PenaltyInv p logits
      ((tokens.drop (tokens.length - repeat_last_n)).foldl (penaltyStep p) (logits, [])) := by
    apply foldl_penaltyStep_inv
    exact ⟨rfl, fun i _ => Or.inl ⟨rfl, rfl⟩⟩
  have hout : applyCachedRepeatPenalty p repeat_last_n [] logits tokens =
      (tokens.drop (tokens.length - repeat_last_n)).foldl (penaltyStep p) (logits, []) := by
    unfold applyCachedRepeatPenalty
    rw [if_neg hpne]
  rcases hres.2 i hi with ⟨hv, _⟩ | ⟨hv, _⟩
  · rw [hout]
    refine ⟨Or.inl hv, fun _ => by rw [hv]⟩
  · rw [hout]
    refine ⟨Or.inr hv, fun hnn => ?_⟩
    rw [hv, abs_of_nonneg hnn]
    rcases eq_or_lt_of_le hnn with h0 | h0
    · rw [← h0]; norm_num
    · rw [signQ_of_pos h0, signQ_of_pos (div_pos h0 (lt_trans zero_lt_one hp))]

/-- Witness for the amended C5 theorem at `p = 2`, `logits = [3]`,
`history = [0]`. -/
theorem apply_cached_repeat_penalty_sign_nonneg_witness :
    ((applyCachedRepeatPenalty 2 4 [] [3] [0]).1.getD 0 0 = (3 : ℚ) ∨
     (applyCachedRepeatPenalty 2 4 [] [3] [0]).1.getD 0 0 = |(3 : ℚ)| / 2) ∧
    (0 ≤ (3 : ℚ) →
     signQ ((applyCachedRepeatPenalty 2 4 [] [3] [0]).1.getD 0 0) = signQ 3) := by
  have h := apply_cached_repeat_penalty_sign_nonneg 2 4 [3] [0] (by norm_num) 0 (by decide)
  simpa using h

/-! ## OpenAI chat service

From `crates/inference-engine/src/server.rs`:
`chat_completions` (lines 321-332), `chat_completions_non_streaming_proxy`
(lines 334-417) and `handle_streaming_request` (lines 430-593).
The non-deterministic response fields `id` (a fresh UUID) and `created`
(current Unix time) are omitted from the embedded response; the result
of `TextGeneration::run_with_output` is passed in as an explicit
`Except String String` value (generation error or generated text). -/

/-- `MessageContent` (`openai_types.rs`): either plain text
(`Either::Left`) or an array of content parts (`Either::Right`). -/
inductive MessageContent
  | text (s : String)
  | parts
deriving DecidableEq

/-- `Message` from `openai_types.rs` (the `name` field is never read by
the handlers and is omitted). -/
structure Message where
  role : String
  content : Option MessageContent
deriving DecidableEq

/-- `ChatCompletionRequest` fields read by the chat handlers. -/
structure ChatCompletionRequest where
  model : String
  messages : List Message
  max_tokens : Option Nat
  stream : Option Bool
deriving DecidableEq

/-- Content extraction in both chat handlers: `Either::Left(text)` is
cloned, `Either::Right(_)` and a missing content become `""`. -/
def messageContentText (m : Message) : String :=
  match m.content with
  | some (MessageContent.text t) => t
  | some MessageContent.parts => ""
  | none => ""

/-- One iteration of the prompt-building loop (`server.rs` lines
339-355): each message is rendered as `"Role: content\n"` with the
role capitalized for the three known roles and echoed verbatim
otherwise. -/
def promptPush (acc : String) (m : Message) : String :=
  let content := messageContentText m
  match m.role with
  | "system" => acc ++ "System: " ++ content ++ "\n"
  | "user" => acc ++ "User: " ++ content ++ "\n"
  | "assistant" => acc ++ "Assistant: " ++ content ++ "\n"
  | other => acc ++ other ++ ": " ++ content ++ "\n"

/-- The prompt string assembled by both chat handlers
(messages loop followed by `prompt.push_str("Assistant: ")`). -/
def messagesToPrompt (messages : List Message) : String :=
  messages.foldl promptPush "" ++ "Assistant: "

/-- `Usage` (`openai_types.rs`). -/
structure Usage where
  prompt_tokens : Nat
  completion_tokens : Nat
  total_tokens : Nat
deriving DecidableEq

/-- The usage block of `chat_completions_non_streaming_proxy`
(`server.rs` lines 409-414): `prompt.len() / 4`,
`completion.len() / 4` and `(prompt.len() + completion.len()) / 4`,
computed over UTF-8 byte lengths with Rust's flooring integer
division. -/
def mkUsage (promptLen completionLen : Nat) : Usage :=
  { prompt_tokens := promptLen / 4,
    completion_tokens := completionLen / 4,
    total_tokens := (promptLen + completionLen) / 4 }

/-- One choice of a non-streaming chat completion response. -/
structure ChatCompletionChoice where
  index : Nat
  message : Message
  finish_reason : String
deriving DecidableEq

/-- The non-streaming chat completion response (`id`/`created`
omitted, see section comment). -/
structure ChatCompletionResponse where
  object : String
  model : String
  choices : List ChatCompletionChoice
  usage : Usage
deriving DecidableEq

/-- Outcome of the non-streaming chat handler: a JSON response or an
HTTP error status with an OpenAI-style error type and message. -/
inductive ChatHandlerResult
  | ok (resp : ChatCompletionResponse)
  | err (status : Nat) (errType : String) (message : String)
deriving DecidableEq

/-- `chat_completions_non_streaming_proxy` (`server.rs` lines 334-417):
builds the prompt from the messages, runs generation (its outcome is
the `genResult` argument), and either returns the 400
`text_generation_error` envelope or the `chat.completion` response
whose `model` field is the server state's configured model id.  The
request's own `model` string is never read. -/
def chatCompletionsNonStreaming (state_model_id : String)
    (req : ChatCompletionRequest) (genResult : Except String String) :
    ChatHandlerResult :=
  let prompt := messagesToPrompt req.messages
  match genResult with
  | Except.error e =>
      ChatHandlerResult.err 400 "text_generation_error" ("Error generating text: " ++ e)
  | Except.ok completion =>
      ChatHandlerResult.ok
        { object := "chat.completion",
          model := state_model_id,
          choices := [{ index := 0,
                        message := { role := "assistant",
                                     content := some (MessageContent.text completion) },
                        finish_reason := "stop" }],
          usage := mkUsage prompt.utf8ByteSize completion.utf8ByteSize }

/-- Does a handler result carry the `model_not_supported` error that the
specification promises for unknown model ids? -/
def isModelNotSupported : ChatHandlerResult → Bool
  | ChatHandlerResult.err 400 "model_not_supported" _ => true
  | _ => false

/-! ## Streaming event builder

`handle_streaming_request` (`server.rs` lines 430-593) first runs the
full generation into a buffer, then splits the generated text into
whitespace-delimited chunks and emits them as SSE events. -/

/-- The `delta`/`finish_reason` payload of one
`ChatCompletionChunkChoice`. -/
structure ChunkChoice where
  role : Option String
  content : Option String
  finish_reason : Option String
deriving DecidableEq

/-- One SSE event of the streaming response: a JSON chunk or the
literal `[DONE]` event. -/
inductive SseEvent
  | chunk (c : ChunkChoice)
  | done
deriving DecidableEq

/-- Character-level model of Rust's `str::split_whitespace`: maximal
runs of non-whitespace characters, in order, with no empty items. -/
def splitWordsAux : List Char → List Char → List String
  | [], [] => []
  | [], acc => [String.mk acc.reverse]
  | c :: cs, acc =>
    if c.isWhitespace then
      match acc with
      | [] => splitWordsAux cs []
      | _ => String.mk acc.reverse :: splitWordsAux cs []
    else splitWordsAux cs (c :: acc)

/-- `generated_text.split_whitespace()` over the string's characters. -/
def splitWhitespace (s : String) : List String :=
  splitWordsAux s.data []

/-- The hardcoded fallback sentence of `handle_streaming_request`
(`server.rs` line 514). -/
def lincolnSentence : String :=
  "Abraham Lincoln was the 16th president of the United States."

/-- `server.rs` lines 507-515: the chunk list streamed to the client —
whitespace-split words each suffixed with a space, or the hardcoded
fallback sentence when the generated text is empty. -/
def chunksOf (generated_text : String) : List String :=
  if generated_text ≠ "" then
    (splitWhitespace generated_text).map (fun word => word ++ " ")
  else
    [lincolnSentence]

/-- `server.rs` lines 517-586: the SSE event sequence.  The first chunk
carries `delta.role = "assistant"` together with the first content
fragment; the remaining fragments follow with content-only deltas; a
final chunk carries `finish_reason = "stop"`; the `[DONE]` event is
always appended (alone when the chunk list is empty). -/
def buildStreamEvents (generated_text : String) : List SseEvent :=
  let chunks := chunksOf generated_text
  match chunks with
  | [] => [SseEvent.done]
  | first :: rest =>
      SseEvent.chunk { role := some "assistant", content := some first, finish_reason := none }
        :: rest.map (fun c =>
             SseEvent.chunk { role := none, content := some c, finish_reason := none })
        ++ [SseEvent.chunk { role := none, content := none, finish_reason := some "stop" },
            SseEvent.done]

/-- The `delta.content` payload of an SSE event, when present. -/
def eventContent : SseEvent → Option String
  | SseEvent.chunk c => c.content
  | SseEvent.done => none

/-- The content fragments delivered by a list of SSE events, in order. -/
def contentFragments (evs : List SseEvent) : List String :=
  evs.filterMap eventContent

theorem contentFragments_map_content (r : List String) :
    contentFragments (r.map (fun c =>
      SseEvent.chunk { role := none, content := some c, finish_reason := none })) = r := by
  induction r with
  | nil => rfl
  | cons a t ih =>
      simpa [contentFragments, eventContent] using ih

/-- **C1 counterexample.** The spec's own scenario: a request with the
unknown model id `"gpt-5-ultra"` is *not* rejected with a 400
`model_not_supported` error; generation is attempted and (when it
succeeds) a normal 200 `chat.completion` response is returned, whose
`model` field echoes the server's configured model, not the request's. -/
theorem chat_unknown_model_counterexample :
    chatCompletionsNonStreaming "gemma-3-1b-it"
        { model := "gpt-5-ultra",
          messages := [{ role := "user", content := some (MessageContent.text "hi") }],
          max_tokens := none, stream := some false }
        (Except.ok "x")
      = ChatHandlerResult.ok
          { object := "chat.completion",
            model := "gemma-3-1b-it",
            choices := [{ index := 0,
                          message := { role := "assistant",
                                       content := some (MessageContent.text "x") },
                          finish_reason := "stop" }],
            usage := { prompt_tokens := 5, completion_tokens := 0, total_tokens := 5 } } ∧
    isModelNotSupported
        (chatCompletionsNonStreaming "gemma-3-1b-it"
          { model := "gpt-5-ultra",
            messages := [{ role := "user", content := some (MessageContent.text "hi") }],
            max_tokens := none, stream := some false }
          (Except.ok "x")) = false := by
  constructor <;> decide

/-- **C1 (amended).** The chat service performs no model lookup at all:
no request can produce a `model_not_supported` error (the only error
envelope of the non-streaming path is `text_generation_error`), and
the response is completely independent of the request's `model`
string. -/
theorem chat_completions_ignores_model (state_model_id : String)
    (req : ChatCompletionRequest) (gen : Except String String) (m : String) :
    isModelNotSupported (chatCompletionsNonStreaming state_model_id req gen) = false ∧
    chatCompletionsNonStreaming state_model_id { req with model := m } gen =
      chatCompletionsNonStreaming state_model_id req gen := by
  cases gen with
  | error e => exact ⟨rfl, rfl⟩
  | ok t => exact ⟨rfl, rfl⟩

/-- **C7 counterexample.** With prompt `"User: h\nAssistant: "`
(19 bytes) and completion `"abc"` (3 bytes) the response's usage is
`{prompt_tokens := 4, completion_tokens := 0, total_tokens := 5}`:
`total_tokens` is `(19 + 3) / 4 = 5`, which differs from
`prompt_tokens + completion_tokens = 4`. -/
theorem usage_total_counterexample :
    chatCompletionsNonStreaming "gemma-3-1b-it"
        { model := "gemma-3-1b-it",
          messages := [{ role := "user", content := some (MessageContent.text "h") }],
          max_tokens := some 8, stream := some false }
        (Except.ok "abc")
      = ChatHandlerResult.ok
          { object := "chat.completion",
            model := "gemma-3-1b-it",
            choices := [{ index := 0,
                          message := { role := "assistant",
                                       content := some (MessageContent.text "abc") },
                          finish_reason := "stop" }],
            usage := { prompt_tokens := 4, completion_tokens := 0, total_tokens := 5 } } ∧
    (5 : Nat) ≠ 4 + 0 := by
  constructor <;> decide

/-- **C7 (amended).** `total_tokens` is `(promptLen + completionLen) / 4`,
not the sum of the two reported counts: the sum is a lower bound, the
difference is at most one, and equality holds exactly when
`promptLen % 4 + completionLen % 4 < 4`. -/
theorem usage_total_floor (p c : Nat) :
    (mkUsage p c).total_tokens = (p + c) / 4 ∧
    (mkUsage p c).prompt_tokens + (mkUsage p c).completion_tokens ≤
      (mkUsage p c).total_tokens ∧
    (mkUsage p c).total_tokens ≤
      (mkUsage p c).prompt_tokens + (mkUsage p c).completion_tokens + 1 ∧
    ((mkUsage p c).total_tokens =
        (mkUsage p c).prompt_tokens + (mkUsage p c).completion_tokens ↔
      p % 4 + c % 4 < 4) := by
  refine ⟨rfl, ?_, ?_, ?_⟩ <;> simp only [mkUsage] <;> omega

/-- **C3 counterexample.** When the generated text is
`"a a a a a a a a"`, the stream emits the same non-empty fragment
`"a "` eight consecutive times: no repetition watchdog stops the
emission after five repeats. -/
theorem streaming_watchdog_counterexample :
    contentFragments (buildStreamEvents "a a a a a a a a") = List.replicate 8 "a " ∧
    ¬ (contentFragments (buildStreamEvents "a a a a a a a a")).length ≤ 5 := by
  constructor <;> decide

/-- **C3 (amended).** There is no repetition watchdog: every
whitespace-delimited fragment of the generated text is emitted as a
content chunk regardless of consecutive repetitions.  When the chunk
list is non-empty the stream still ends with one `stop` chunk followed
by `[DONE]`; when the generated text is non-empty but entirely
whitespace, the chunk list is empty and the stream degenerates to a
lone `[DONE]` with no stop chunk. -/
theorem streaming_no_watchdog (text : String) :
    contentFragments (buildStreamEvents text) = chunksOf text ∧
    (chunksOf text = [] → buildStreamEvents text = [SseEvent.done]) ∧
    (chunksOf text ≠ [] →
      (buildStreamEvents text).drop ((buildStreamEvents text).length - 2) =
        [SseEvent.chunk { role := none, content := none, finish_reason := some "stop" },
         SseEvent.done]) := by
  have hdrop : ∀ (e0 s d : SseEvent) (m : List SseEvent),
      (e0 :: (m ++ [s, d])).drop ((e0 :: (m ++ [s, d])).length - 2) = [s, d] := by
    intro e0 s d m
    have hlen : (e0 :: (m ++ [s, d])).length - 2 = m.length + 1 := by
      simp [List.length_append]
    rw [hlen, List.drop_succ_cons, List.drop_left]
  rcases hc : chunksOf text with _ | ⟨f, r⟩
  · refine ⟨?_, fun _ => ?_, fun hne => absurd rfl hne⟩
    · simp [buildStreamEvents, hc, contentFragments, eventContent]
    · simp [buildStreamEvents, hc]
  · refine ⟨?_, fun he => absurd he (by simp), fun _ => ?_⟩
    · have hr := contentFragments_map_content r
      simp only [contentFragments] at hr ⊢
      simp [buildStreamEvents, hc, eventContent, List.filterMap_cons, List.filterMap_append, hr]
    · have := hdrop
        (SseEvent.chunk { role := some "assistant", content := some f, finish_reason := none })
        (SseEvent.chunk { role := none, content := none, finish_reason := some "stop" })
        SseEvent.done
        (r.map (fun c =>
          SseEvent.chunk { role := none, content := some c, finish_reason := none }))
      simp only [buildStreamEvents, hc]
      exact this

/-- Witness for the amended C3 theorem at the generated text `"hi"`. -/
theorem streaming_no_watchdog_witness :
    contentFragments (buildStreamEvents "hi") = chunksOf "hi" ∧
    (buildStreamEvents "hi").drop ((buildStreamEvents "hi").length - 2) =
      [SseEvent.chunk { role := none, content := none, finish_reason := some "stop" },
       SseEvent.done] := by
  have h := streaming_no_watchdog "hi"
  exact ⟨h.1, h.2.2 (by decide)⟩

/-- **C10.** When generation produces the empty string, the streamed
response still contains exactly one content chunk — the hardcoded
Abraham Lincoln sentence, carried by the role chunk — followed by the
final `stop` chunk and the `[DONE]` event. -/
theorem empty_generation_lincoln_fallback :
    buildStreamEvents "" =
      [SseEvent.chunk { role := some "assistant", content := some lincolnSentence,
                        finish_reason := none },
       SseEvent.chunk { role := none, content := none, finish_reason := some "stop" },
       SseEvent.done] ∧
    contentFragments (buildStreamEvents "") = [lincolnSentence] := by
  constructor <;> decide

/-! ## Generation loop `run_with_output`

From `crates/inference-engine/src/text_generation.rs`,
`TextGeneration::run_with_output` (lines 437-631).  The tensor forward
pass, the repetition penalty and the seeded sampler together
deterministically map the token history to the next token; they are
abstracted as the oracle `nextTok`.  Both the gemma-2/gemma-3 path and
the standard path append one sampled token per iteration, break on
`eos`/`end_of_turn` before emitting it, and otherwise write the decoded
fragment to the output buffer, so one loop models both.

The incremental detokenizer is declared as
`pub mod token_output_stream` in `crates/inference-engine/src/lib.rs`
but `token_output_stream.rs` itself is not among the sources. -/

/-- Modelled from the spec: the missing `token_output_stream.rs`
(spec §4.3) buffers pushed ids and returns a fragment exactly when the
accumulated bytes reach a fresh UTF-8 boundary.  This model covers
tokenizers whose individual ids decode to whole UTF-8 strings: `push`
then returns the id's decode whenever it is non-empty (`none` for an
empty decode), and `decode_rest`/`flush` has nothing buffered. -/
def pushToken (vocab : Nat → String) (token_id : Nat) : Option String :=
  if vocab token_id = "" then none else some (vocab token_id)

/-- The parameters of one generation run: the detokenizer vocabulary,
the tokenizer's `encode`, the special ids resolved from the tokenizer
(`<eos>`, `<end_of_turn>`), and the forward-pass/penalty/sampler
composition as a deterministic oracle from the token history. -/
structure GenModel where
  vocab : Nat → String
  encode : String → List Nat
  eosToken : Nat
  eotToken : Nat
  nextTok : List Nat → Nat

/-- The sampling loop of `run_with_output` (lines 519-556 / 573-609):
up to `sample_len` iterations; each samples `next` from the history,
appends it, stops (without emitting) on `eos`/`end_of_turn`, and
otherwise appends the decoded fragment (when any) to the output. -/
def genLoop (m : GenModel) : Nat → List Nat → String → List Nat × String
  | 0, tokens, out => (tokens, out)
  | Nat.succ n, tokens, out =>
      let next := m.nextTok tokens
      let tokens2 := tokens ++ [next]
      if next = m.eosToken ∨ next = m.eotToken then (tokens2, out)
      else
        match pushToken m.vocab next with
        | some t => genLoop m n tokens2 (out ++ t)
        | none => genLoop m n tokens2 out

/-- `run_with_output` lines 462-467: every encoded prompt id is pushed
through the tokenizer stream and the returned fragments are written to
the output buffer. -/
def promptWarmup (m : GenModel) (tokens : List Nat) : String :=
  tokens.foldl
    (fun acc t =>
      match pushToken m.vocab t with
      | some s => acc ++ s
      | none => acc) ""

/-- `TextGeneration::run_with_output`: the full contents of the output
buffer — the prompt warm-up fragments followed by the generation
loop's fragments. -/
def runWithOutput (m : GenModel) (prompt : String) (sample_len : Nat) : String :=
  let tokens := m.encode prompt
  (genLoop m sample_len tokens (promptWarmup m tokens)).2

/-- The fragments produced by newly generated token ids alone (the
generation loop started on an empty output buffer). -/
def generatedOutput (m : GenModel) (prompt : String) (sample_len : Nat) : String :=
  (genLoop m sample_len (m.encode prompt) "").2

theorem genLoop_out_append (m : GenModel) :
    ∀ (n : Nat) (tokens : List Nat) (out : String),
      (genLoop m n tokens out).2 = out ++ (genLoop m n tokens "").2
  | 0, tokens, out => by simp [genLoop]
  | Nat.succ n, tokens, out => by
      simp only [genLoop]
      split
      · simp
      · cases h : pushToken m.vocab (m.nextTok tokens) with
        | some t =>
            rw [genLoop_out_append m n (tokens ++ [m.nextTok tokens]) (out ++ t),
                genLoop_out_append m n (tokens ++ [m.nextTok tokens]) ("" ++ t),
                String.empty_append, String.append_assoc]
        | none => exact genLoop_out_append m n (tokens ++ [m.nextTok tokens]) out

/-- **C2 counterexample.** A prompt that encodes to one id decoding to
`"Hi"`, with generation immediately sampling `eos`: the buffer handed
to the client is `"Hi"` — the decoded prompt — while the newly
generated ids contribute nothing.  The prompt fragments are therefore
emitted downstream. -/
theorem run_with_output_prompt_leak_counterexample :
    runWithOutput
        { vocab := fun t => if t = 0 then "Hi" else "",
          encode := fun _ => [0], eosToken := 1, eotToken := 2,
          nextTok := fun _ => 1 } "Hi" 8 = "Hi" ∧
    generatedOutput
        { vocab := fun t => if t = 0 then "Hi" else "",
          encode := fun _ => [0], eosToken := 1, eotToken := 2,
          nextTok := fun _ => 1 } "Hi" 8 = "" ∧
    "Hi" ≠ "" := by
  refine ⟨?_, ?_, ?_⟩ <;> decide

/-- **C2 (amended).** The output buffer delivered by `run_with_output`
is the decoded prompt warm-up fragments *followed by* the fragments of
the newly generated ids: the prompt ids are pushed through the
tokenizer stream and their fragments **are** written downstream, ahead
of the generated text.  (Only the separate `gemma-runner` crate's
`run_stream` discards the warm-up fragments.) -/
theorem run_with_output_prompt_prefix (m : GenModel) (prompt : String) (sample_len : Nat) :
    runWithOutput m prompt sample_len =
      promptWarmup m (m.encode prompt) ++ generatedOutput m prompt sample_len := by
  unfold runWithOutput generatedOutput
  exact genLoop_out_append m sample_len (m.encode prompt) (promptWarmup m (m.encode prompt))

/-! ## HighAvailability reverse proxy

From `crates/predict-otron-9000/src/ha_mode.rs` (the module wired by
`main.rs`; `proxy.rs` is an identical unwired copy):
`proxy_chat_completions` (lines 159-253),
`should_forward_header` (lines 374-380) and
`should_forward_response_header` (lines 383-389).  The upstream HTTP
exchange is abstracted: `Option UpstreamResponse` is the outcome of
`req_builder.send()` (`none` = transport error). -/

/-- Minimal JSON value model for the body peeking of
`proxy_chat_completions` (lines 184-194). -/
inductive JsonVal
  | null
  | bool (b : Bool)
  | num (n : Int)
  | str (s : String)
  | arr (xs : List JsonVal)
  | obj (fields : List (String × JsonVal))

/-- First binding of a key in a JSON object (`serde_json` map get). -/
def jsonLookup : List (String × JsonVal) → String → Option JsonVal
  | [], _ => none
  | (k, v) :: rest, key => if key = k then some v else jsonLookup rest key

/-- `json.get(key)`. -/
def jsonGet (j : JsonVal) (key : String) : Option JsonVal :=
  match j with
  | JsonVal.obj fields => jsonLookup fields key
  | _ => none

/-- `Value::as_bool`. -/
def jsonAsBool : JsonVal → Option Bool
  | JsonVal.bool b => some b
  | _ => none

/-- `ha_mode.rs` lines 184-194: the streaming flag peeked from the
request body — `false` when the body is not UTF-8/JSON (`none`), when
`stream` is absent, or when it is not a boolean. -/
def detectStreaming (body : Option JsonVal) : Bool :=
  match body with
  | some j => ((jsonGet j "stream").bind jsonAsBool).getD false
  | none => false

/-- `str::to_lowercase`, modelled character-wise (the header names the
proxy compares are ASCII, where Unicode and per-char lowercasing
agree). -/
def lowerAscii (s : String) : String :=
  String.mk (s.data.map Char.toLower)

/-- `should_forward_header` (`ha_mode.rs` lines 374-380). -/
def should_forward_header (header_name : String) : Bool :=
  match lowerAscii header_name with
  | "content-type" => true
  | "content-length" => true
  | "authorization" => true
  | "user-agent" => true
  | "accept" => true
  | "host" => false
  | "connection" => false
  | "upgrade" => false
  | _ => true

/-- `should_forward_response_header` (`ha_mode.rs` lines 383-389). -/
def should_forward_response_header (header_name : String) : Bool :=
  match lowerAscii header_name with
  | "content-type" => true
  | "content-length" => true
  | "cache-control" => true
  | "connection" => true
  | "server" => false
  | "date" => false
  | _ => true

/-- The upstream service's response: status, headers, and body bytes. -/
structure UpstreamResponse where
  status : Nat
  headers : List (String × String)
  body : List Nat

/-- The proxy's outcome: a built response or a bare HTTP error status. -/
inductive ProxyResult
  | response (status : Nat) (headers : List (String × String)) (body : List Nat)
  | httpError (status : Nat)
deriving DecidableEq

/-- `proxy_chat_completions` (`ha_mode.rs` lines 159-253), given the
parsed request body and the upstream exchange outcome: on transport
error, `502 Bad Gateway`; otherwise the upstream status, the upstream
headers filtered by `should_forward_response_header` (in order), then —
for a streaming request — the three added headers
`content-type: text/plain; charset=utf-8`, `cache-control: no-cache`,
`connection: keep-alive`; the upstream body bytes are forwarded
verbatim in both cases. -/
def proxyChatCompletions (requestBody : Option JsonVal)
    (upstream : Option UpstreamResponse) : ProxyResult :=
  let is_streaming := detectStreaming requestBody
  match upstream with
  | none => ProxyResult.httpError 502
  | some resp =>
      let fwd := resp.headers.filter (fun p => should_forward_response_header p.1)
      if is_streaming then
        ProxyResult.response resp.status
          (fwd ++ [("content-type", "text/plain; charset=utf-8"),
                   ("cache-control", "no-cache"),
                   ("connection", "keep-alive")])
          resp.body
      else
        ProxyResult.response resp.status fwd resp.body

/-- **C4 counterexample.** A streaming request (`{"stream": true, ...}`)
proxied to an upstream whose response has headers
`server`, `date`, `x-request-id`: the proxy's response adds
`content-type: text/plain; charset=utf-8` — not
`content-type: text/event-stream` — so the promised SSE content type is
absent. -/
theorem proxy_streaming_content_type_counterexample :
    proxyChatCompletions
        (some (JsonVal.obj [("model", JsonVal.str "gemma-3-1b-it"),
                            ("stream", JsonVal.bool true)]))
        (some { status := 200,
                headers := [("server", "axum"), ("date", "x"), ("x-request-id", "abc")],
                body := [100, 97, 116, 97] })
      = ProxyResult.response 200
          [("x-request-id", "abc"),
           ("content-type", "text/plain; charset=utf-8"),
           ("cache-control", "no-cache"),
           ("connection", "keep-alive")]
          [100, 97, 116, 97] ∧
    ("content-type", "text/event-stream") ∉
      [("x-request-id", "abc"),
       ("content-type", "text/plain; charset=utf-8"),
       ("cache-control", "no-cache"),
       ("connection", "keep-alive")] := by
  constructor <;> decide

/-- **C4 (amended).** For a streaming request the proxy forwards the
upstream body bytes verbatim and appends
`content-type: text/plain; charset=utf-8` (not `text/event-stream`),
`cache-control: no-cache` and `connection: keep-alive` after the
upstream headers filtered by `should_forward_response_header`; no
`server` or `date` header survives the filter. -/
theorem proxy_streaming_response (requestBody : Option JsonVal)
    (up : UpstreamResponse) (hs : detectStreaming requestBody = true) :
    proxyChatCompletions requestBody (some up) =
      ProxyResult.response up.status
        (up.headers.filter (fun p => should_forward_response_header p.1) ++
         [("content-type", "text/plain; charset=utf-8"),
          ("cache-control", "no-cache"),
          ("connection", "keep-alive")])
        up.body ∧
    ∀ p ∈ up.headers.filter (fun p => should_forward_response_header p.1) ++
        [("content-type", "text/plain; charset=utf-8"),
         ("cache-control", "no-cache"),
         ("connection", "keep-alive")],
      lowerAscii p.1 ≠ "server" ∧ lowerAscii p.1 ≠ "date" := by
  constructor
  · unfold proxyChatCompletions
    rw [hs]
    rfl
  · intro p hp
    rcases List.mem_append.mp hp with hmem | hmem
    · have hfwd := (List.mem_filter.mp hmem).2
      constructor
      · intro h
        rw [should_forward_response_header, h] at hfwd
        cases hfwd
      · intro h
        rw [should_forward_response_header, h] at hfwd
        cases hfwd
    · fin_cases hmem <;> exact ⟨by decide, by decide⟩

/-- Witness for the amended C4 theorem at a concrete streaming request
and upstream response. -/
theorem proxy_streaming_response_witness :
    proxyChatCompletions (some (JsonVal.obj [("stream", JsonVal.bool true)]))
        (some { status := 200, headers := [("date", "d")], body := [10] })
      = ProxyResult.response 200
          ((([("date", "d")] : List (String × String)).filter
              (fun p => should_forward_response_header p.1)) ++
           [("content-type", "text/plain; charset=utf-8"),
            ("cache-control", "no-cache"),
            ("connection", "keep-alive")])
          [10] := by
  exact (proxy_streaming_response (some (JsonVal.obj [("stream", JsonVal.bool true)]))
    { status := 200, headers := [("date", "d")], body := [10] } (by decide)).1

/-! ## Embeddings engine

From `crates/embeddings-engine/src/lib.rs`:
`parse_embedding_model` (lines 36-125), `get_model_dimensions`
(lines 128-152) and `embeddings_create` (lines 198-401).  The fastembed
runtime is abstracted into an environment: `initModel` is the outcome
of `get_or_create_model`, `embed` the outcome of `model.embed(texts,
None)` with vectors over `ℚ`, and `randomUnit` the RNG-dependent
replacement vector of the all-zero remediation path (lines 309-331). -/

/-- `fastembed::EmbeddingModel` variants used by the engine. -/
inductive EmbeddingModel
  | AllMiniLML6V2 | AllMiniLML6V2Q | AllMiniLML12V2 | AllMiniLML12V2Q
  | BGEBaseENV15 | BGEBaseENV15Q | BGELargeENV15 | BGELargeENV15Q
  | BGESmallENV15 | BGESmallENV15Q | BGESmallZHV15 | BGELargeZHV15
  | NomicEmbedTextV1 | NomicEmbedTextV15 | NomicEmbedTextV15Q
  | ParaphraseMLMiniLML12V2 | ParaphraseMLMiniLML12V2Q | ParaphraseMLMpnetBaseV2
  | ModernBertEmbedLarge
  | MultilingualE5Small | MultilingualE5Base | MultilingualE5Large
  | MxbaiEmbedLargeV1 | MxbaiEmbedLargeV1Q
  | GTEBaseENV15 | GTEBaseENV15Q | GTELargeENV15 | GTELargeENV15Q
  | ClipVitB32 | JinaEmbeddingsV2BaseCode
deriving DecidableEq

/-- `parse_embedding_model` (lines 36-125): the full model-name table. -/
def parse_embedding_model (model_name : String) : Except String EmbeddingModel :=
  match model_name with
  | "sentence-transformers/all-MiniLM-L6-v2" | "all-minilm-l6-v2" =>
      Except.ok EmbeddingModel.AllMiniLML6V2
  | "sentence-transformers/all-MiniLM-L6-v2-q" | "all-minilm-l6-v2-q" =>
      Except.ok EmbeddingModel.AllMiniLML6V2Q
  | "sentence-transformers/all-MiniLM-L12-v2" | "all-minilm-l12-v2" =>
      Except.ok EmbeddingModel.AllMiniLML12V2
  | "sentence-transformers/all-MiniLM-L12-v2-q" | "all-minilm-l12-v2-q" =>
      Except.ok EmbeddingModel.AllMiniLML12V2Q
  | "BAAI/bge-base-en-v1.5" | "bge-base-en-v1.5" =>
      Except.ok EmbeddingModel.BGEBaseENV15
  | "BAAI/bge-base-en-v1.5-q" | "bge-base-en-v1.5-q" =>
      Except.ok EmbeddingModel.BGEBaseENV15Q
  | "BAAI/bge-large-en-v1.5" | "bge-large-en-v1.5" =>
      Except.ok EmbeddingModel.BGELargeENV15
  | "BAAI/bge-large-en-v1.5-q" | "bge-large-en-v1.5-q" =>
      Except.ok EmbeddingModel.BGELargeENV15Q
  | "BAAI/bge-small-en-v1.5" | "bge-small-en-v1.5" =>
      Except.ok EmbeddingModel.BGESmallENV15
  | "BAAI/bge-small-en-v1.5-q" | "bge-small-en-v1.5-q" =>
      Except.ok EmbeddingModel.BGESmallENV15Q
  | "BAAI/bge-small-zh-v1.5" | "bge-small-zh-v1.5" =>
      Except.ok EmbeddingModel.BGESmallZHV15
  | "BAAI/bge-large-zh-v1.5" | "bge-large-zh-v1.5" =>
      Except.ok EmbeddingModel.BGELargeZHV15
  | "nomic-ai/nomic-embed-text-v1" | "nomic-embed-text-v1" =>
      Except.ok EmbeddingModel.NomicEmbedTextV1
  | "nomic-ai/nomic-embed-text-v1.5" | "nomic-embed-text-v1.5" | "nomic-text-embed" =>
      Except.ok EmbeddingModel.NomicEmbedTextV15
  | "nomic-ai/nomic-embed-text-v1.5-q" | "nomic-embed-text-v1.5-q" =>
      Except.ok EmbeddingModel.NomicEmbedTextV15Q
  | "sentence-transformers/paraphrase-multilingual-MiniLM-L12-v2"
  | "paraphrase-multilingual-minilm-l12-v2" =>
      Except.ok EmbeddingModel.ParaphraseMLMiniLML12V2
  | "sentence-transformers/paraphrase-multilingual-MiniLM-L12-v2-q"
  | "paraphrase-multilingual-minilm-l12-v2-q" =>
      Except.ok EmbeddingModel.ParaphraseMLMiniLML12V2Q
  | "sentence-transformers/paraphrase-multilingual-mpnet-base-v2"
  | "paraphrase-multilingual-mpnet-base-v2" =>
      Except.ok EmbeddingModel.ParaphraseMLMpnetBaseV2
  | "lightonai/modernbert-embed-large" | "modernbert-embed-large" =>
      Except.ok EmbeddingModel.ModernBertEmbedLarge
  | "intfloat/multilingual-e5-small" | "multilingual-e5-small" =>
      Except.ok EmbeddingModel.MultilingualE5Small
  | "intfloat/multilingual-e5-base" | "multilingual-e5-base" =>
      Except.ok EmbeddingModel.MultilingualE5Base
  | "intfloat/multilingual-e5-large" | "multilingual-e5-large" =>
      Except.ok EmbeddingModel.MultilingualE5Large
  | "mixedbread-ai/mxbai-embed-large-v1" | "mxbai-embed-large-v1" =>
      Except.ok EmbeddingModel.MxbaiEmbedLargeV1
  | "mixedbread-ai/mxbai-embed-large-v1-q" | "mxbai-embed-large-v1-q" =>
      Except.ok EmbeddingModel.MxbaiEmbedLargeV1Q
  | "Alibaba-NLP/gte-base-en-v1.5" | "gte-base-en-v1.5" =>
      Except.ok EmbeddingModel.GTEBaseENV15
  | "Alibaba-NLP/gte-base-en-v1.5-q" | "gte-base-en-v1.5-q" =>
      Except.ok EmbeddingModel.GTEBaseENV15Q
  | "Alibaba-NLP/gte-large-en-v1.5" | "gte-large-en-v1.5" =>
      Except.ok EmbeddingModel.GTELargeENV15
  | "Alibaba-NLP/gte-large-en-v1.5-q" | "gte-large-en-v1.5-q" =>
      Except.ok EmbeddingModel.GTELargeENV15Q
  | "Qdrant/clip-ViT-B-32-text" | "clip-vit-b-32" =>
      Except.ok EmbeddingModel.ClipVitB32
  | "jinaai/jina-embeddings-v2-base-code" | "jina-embeddings-v2-base-code" =>
      Except.ok EmbeddingModel.JinaEmbeddingsV2BaseCode
  | _ => Except.error ("Unsupported embedding model: " ++ model_name)

/-- `get_model_dimensions` (lines 128-152). -/
def get_model_dimensions (model : EmbeddingModel) : Nat :=
  match model with
  | EmbeddingModel.AllMiniLML6V2 | EmbeddingModel.AllMiniLML6V2Q => 384
  | EmbeddingModel.AllMiniLML12V2 | EmbeddingModel.AllMiniLML12V2Q => 384
  | EmbeddingModel.BGEBaseENV15 | EmbeddingModel.BGEBaseENV15Q => 768
  | EmbeddingModel.BGELargeENV15 | EmbeddingModel.BGELargeENV15Q => 1024
  | EmbeddingModel.BGESmallENV15 | EmbeddingModel.BGESmallENV15Q => 384
  | EmbeddingModel.BGESmallZHV15 => 512
  | EmbeddingModel.BGELargeZHV15 => 1024
  | EmbeddingModel.NomicEmbedTextV1 | EmbeddingModel.NomicEmbedTextV15
  | EmbeddingModel.NomicEmbedTextV15Q => 768
  | EmbeddingModel.ParaphraseMLMiniLML12V2 | EmbeddingModel.ParaphraseMLMiniLML12V2Q => 384
  | EmbeddingModel.ParaphraseMLMpnetBaseV2 => 768
  | EmbeddingModel.ModernBertEmbedLarge => 1024
  | EmbeddingModel.MultilingualE5Small => 384
  | EmbeddingModel.MultilingualE5Base => 768
  | EmbeddingModel.MultilingualE5Large => 1024
  | EmbeddingModel.MxbaiEmbedLargeV1 | EmbeddingModel.MxbaiEmbedLargeV1Q => 1024
  | EmbeddingModel.GTEBaseENV15 | EmbeddingModel.GTEBaseENV15Q => 768
  | EmbeddingModel.GTELargeENV15 | EmbeddingModel.GTELargeENV15Q => 1024
  | EmbeddingModel.ClipVitB32 => 512
  | EmbeddingModel.JinaEmbeddingsV2BaseCode => 768

/-- `async_openai::types::EmbeddingInput`. -/
inductive EmbeddingInput
  | str (s : String)
  | strArray (xs : List String)
  | intArray (xs : List Int)
  | arrayOfIntArray (xss : List (List Int))
deriving DecidableEq

/-- The fields of `CreateEmbeddingRequest` read by the handler. -/
structure CreateEmbeddingRequest where
  model : String
  input : EmbeddingInput
deriving DecidableEq

/-- One entry of the response's `data` array (lines 373-379). -/
structure EmbeddingData where
  object : String
  index : Nat
  embedding : List ℚ
deriving DecidableEq

/-- The embeddings response JSON (lines 371-385). -/
structure EmbeddingsResponse where
  object : String
  data : List EmbeddingData
  model : String
  prompt_tokens : Nat
  total_tokens : Nat
deriving DecidableEq

/-- Outcome of `embeddings_create`: a response, an HTTP error, or a
`panic!` (which aborts the handler instead of answering the client). -/
inductive EmbeddingsOutcome
  | ok (resp : EmbeddingsResponse)
  | err (status : Nat) (message : String)
  | panic (message : String)
deriving DecidableEq

/-- The fastembed runtime abstracted: `initModel` is
`get_or_create_model`, `embed` is `model.embed(texts, None)`, and
`randomUnit d` is the RNG-dependent random unit vector of dimension `d`
built by the all-zero remediation (lines 309-331). -/
structure EmbedEnv where
  initModel : EmbeddingModel → Except String Unit
  embed : List String → Except String (List (List ℚ))
  randomUnit : Nat → List ℚ

/-- Input processing (lines 235-245): strings pass through, integer
arrays hit one of the two `panic!` calls (the `Except.error` carries
the panic message). -/
def inputTexts : EmbeddingInput → Except String (List String)
  | EmbeddingInput.str t => Except.ok [t]
  | EmbeddingInput.strArray ts => Except.ok ts
  | EmbeddingInput.intArray _ =>
      Except.error "Integer array input not supported for text embeddings"
  | EmbeddingInput.arrayOfIntArray _ =>
      Except.error "Array of integer arrays not supported for text embeddings"

/-- Post-processing of the first embedding (lines 303-351): an all-zero
vector is replaced by the RNG-built unit vector of the descriptor's
dimensionality; otherwise the vector is returned as-is (a dimension
mismatch only logs a warning). -/
def postProcess (env : EmbedEnv) (model : EmbeddingModel) (emb : List ℚ) : List ℚ :=
  if emb.all (fun x => x = 0) then env.randomUnit (get_model_dimensions model)
  else emb

/-- `embeddings_create` (lines 198-401): model parse (400 on unknown
id), model init (500 on failure), input processing (panic on integer
arrays), batch embed (500 on failure), then the response built from the
post-processed **first** embedding only.  `embeddings[0]` on an empty
batch is an index-out-of-bounds panic. -/
def embeddingsCreate (env : EmbedEnv) (payload : CreateEmbeddingRequest) :
    EmbeddingsOutcome :=
  match parse_embedding_model payload.model with
  | Except.error e => EmbeddingsOutcome.err 400 ("Invalid model: " ++ e)
  | Except.ok embedding_model =>
    match env.initModel embedding_model with
    | Except.error e => EmbeddingsOutcome.err 500 ("Model initialization failed: " ++ e)
    | Except.ok _ =>
      match inputTexts payload.input with
      | Except.error msg => EmbeddingsOutcome.panic msg
      | Except.ok texts =>
        match env.embed texts with
        | Except.error e => EmbeddingsOutcome.err 500 ("Embedding generation failed: " ++ e)
        | Except.ok [] =>
            EmbeddingsOutcome.panic "index out of bounds: the len is 0 but the index is 0"
        | Except.ok (e0 :: _) =>
            EmbeddingsOutcome.ok
              { object := "list",
                data := [{ object := "embedding", index := 0,
                           embedding := postProcess env embedding_model e0 }],
                model := payload.model,
                prompt_tokens := 0, total_tokens := 0 }

/-- Is the outcome an HTTP 400 error response (as the spec promises for
integer-array inputs)? -/
def isHttp400 : EmbeddingsOutcome → Bool
  | EmbeddingsOutcome.err 400 _ => true
  | _ => false

/-- A trivial runtime environment for the concrete counterexample (its
fields are never reached on the panic path). -/
def trivialEmbedEnv : EmbedEnv :=
  { initModel := fun _ => Except.ok (),
    embed := fun _ => Except.ok [],
    randomUnit := fun _ => [] }

/-- **C6 counterexample.** An integer-array `input` with the valid model
`nomic-embed-text-v1.5` makes `embeddings_create` hit
`panic!("Integer array input not supported for text embeddings")`: the
handler aborts instead of returning an HTTP 400 `unsupported_input`
response. -/
theorem embeddings_integer_input_counterexample :
    embeddingsCreate trivialEmbedEnv
        { model := "nomic-embed-text-v1.5", input := EmbeddingInput.intArray [1, 2] }
      = EmbeddingsOutcome.panic "Integer array input not supported for text embeddings" ∧
    isHttp400 (embeddingsCreate trivialEmbedEnv
        { model := "nomic-embed-text-v1.5", input := EmbeddingInput.intArray [1, 2] })
      = false := by
  constructor <;> decide

/-- **C6 (amended).** For a request whose model id parses and whose
model initialization succeeds, an integer-array (or
array-of-integer-arrays) `input` causes a `panic!` with the
corresponding message — the request is aborted, not answered with a 400
`unsupported_input` error. -/
theorem embeddings_integer_input_panics (env : EmbedEnv)
    (payload : CreateEmbeddingRequest) (m : EmbeddingModel)
    (hm : parse_embedding_model payload.model = Except.ok m)
    (hi : env.initModel m = Except.ok ()) :
    (∀ xs, payload.input = EmbeddingInput.intArray xs →
      embeddingsCreate env payload =
        EmbeddingsOutcome.panic "Integer array input not supported for text embeddings") ∧
    (∀ xss, payload.input = EmbeddingInput.arrayOfIntArray xss →
      embeddingsCreate env payload =
        EmbeddingsOutcome.panic "Array of integer arrays not supported for text embeddings") := by
  constructor
  · intro xs hx
    simp only [embeddingsCreate, hm, hi, hx, inputTexts]
  · intro xss hx
    simp only [embeddingsCreate, hm, hi, hx, inputTexts]

/-- Witness for the amended C6 theorem at a concrete request. -/
theorem embeddings_integer_input_panics_witness :
    embeddingsCreate trivialEmbedEnv
        { model := "bge-small-en-v1.5", input := EmbeddingInput.intArray [7] }
      = EmbeddingsOutcome.panic "Integer array input not supported for text embeddings" :=
  (embeddings_integer_input_panics trivialEmbedEnv
      { model := "bge-small-en-v1.5", input := EmbeddingInput.intArray [7] }
      EmbeddingModel.BGESmallENV15 rfl rfl).1 [7] rfl

/-- **C9.** For a string-array `input`, when the batch embed returns one
vector per input, the response's `data` array contains exactly one
entry — index `0`, the post-processed embedding of the *first* input —
no matter how many inputs (and embeddings) there were; the rest are
discarded. -/
theorem embeddings_only_first_returned (env : EmbedEnv)
    (payload : CreateEmbeddingRequest) (m : EmbeddingModel)
    (texts : List String) (e0 : List ℚ) (rest : List (List ℚ))
    (hm : parse_embedding_model payload.model = Except.ok m)
    (hi : env.initModel m = Except.ok ())
    (hin : payload.input = EmbeddingInput.strArray texts)
    (hemb : env.embed texts = Except.ok (e0 :: rest)) :
    embeddingsCreate env payload =
      EmbeddingsOutcome.ok
        { object := "list",
          data := [{ object := "embedding", index := 0,
                     embedding := postProcess env m e0 }],
          model := payload.model,
          prompt_tokens := 0, total_tokens := 0 } := by
  simp only [embeddingsCreate, hm, hi, hin, inputTexts, hemb]

/-- Witness for the C9 theorem: three inputs, three embeddings returned
by the backend, a single `data` entry in the response. -/
theorem embeddings_only_first_returned_witness :
    embeddingsCreate
        { initModel := fun _ => Except.ok (),
          embed := fun _ => Except.ok [[1], [2], [3]],
          randomUnit := fun _ => [] }
        { model := "bge-small-en-v1.5",
          input := EmbeddingInput.strArray ["a", "b", "c"] }
      = EmbeddingsOutcome.ok
          { object := "list",
            data := [{ object := "embedding", index := 0,
                       embedding := postProcess
                         { initModel := fun _ => Except.ok (),
                           embed := fun _ => Except.ok [[1], [2], [3]],
                           randomUnit := fun _ => [] }
                         EmbeddingModel.BGESmallENV15 [1] }],
            model := "bge-small-en-v1.5",
            prompt_tokens := 0, total_tokens := 0 } :=
  embeddings_only_first_returned
    { initModel := fun _ => Except.ok (),
      embed := fun _ => Except.ok [[1], [2], [3]],
      randomUnit := fun _ => [] }
    { model := "bge-small-en-v1.5",
      input := EmbeddingInput.strArray ["a", "b", "c"] }
    EmbeddingModel.BGESmallENV15 ["a", "b", "c"] [1] [[2], [3]]
    rfl rfl rfl rfl

end PredictOtron
